import Mathlib

/-!
Verification of the e-books-supply client-side scripts.

The repository holds two page scripts (an emoji-indicator variant,
`books_app/static/js/main.js`, and an icon-indicator variant) and a
pass-through service worker (`static/sw.js`).  The definitions below are a
shallow embedding of those scripts: DOM state is an explicit record,
`localStorage` is an `Option String`, each click handler is a pure state
transformer, and a DOM access that can throw is an `Except`.
-/

/-! ## Navigation toggle (both page-script variants, identical code) -/

/-- State of the navigation widget: whether the container carries the
`is-open` class, and the literal string value of the toggle button's
`aria-expanded` attribute. -/
structure NavState where
  isOpen : Bool
  ariaExpanded : String
  deriving DecidableEq, Repr

/-- The toggle button's click handler:
`mainNav.classList.toggle('is-open')` flips the class, then
`isExpanded = this.getAttribute('aria-expanded') === 'true'` and
`this.setAttribute('aria-expanded', !isExpanded)` (JavaScript stringifies
the boolean to `"true"`/`"false"`). -/
def navToggleClick (s : NavState) : NavState :=
  { isOpen := !s.isOpen
    ariaExpanded := if s.ariaExpanded = "true" then "false" else "true" }

/-- The handler attached to every link inside the container: if the
container has the `is-open` class, remove it and set `aria-expanded` to
`"false"`; otherwise do nothing. -/
def navLinkClick (s : NavState) : NavState :=
  if s.isOpen then { isOpen := false, ariaExpanded := "false" } else s

/-- A user interaction with the navigation widget. -/
inductive NavEvent where
  | toggleClick
  | linkClick
  deriving DecidableEq, Repr

/-- Dispatch one event to the corresponding handler. -/
def navStep (s : NavState) : NavEvent → NavState
  | NavEvent.toggleClick => navToggleClick s
  | NavEvent.linkClick => navLinkClick s

/-- Modelled from the spec: the initial page markup is not under `src/`;
per the data model ("a CSS class plus an ARIA attribute mirror", reset on
reload) and the lockstep contract (closed ⇒ "false"), the page starts with
the menu closed and the accessibility attribute `"false"`. -/
def initNavState : NavState :=
  { isOpen := false, ariaExpanded := "false" }

/-- Run a sequence of navigation events from the initial page state. -/
def navRun (evs : List NavEvent) : NavState :=
  evs.foldl navStep initNavState

/-- The lockstep invariant of the spec: open implies attribute `"true"`,
closed implies attribute `"false"`. -/
def lockstep (s : NavState) : Prop :=
  (s.isOpen = true → s.ariaExpanded = "true") ∧
  (s.isOpen = false → s.ariaExpanded = "false")

instance (s : NavState) : Decidable (lockstep s) := by
  unfold lockstep; infer_instance

/-! ## Theme toggle — shared load computation -/

/-- `localStorage.getItem('theme') || 'light'`: JavaScript `||` falls back
to `'light'` both when the key is absent (`null`) and when the stored
string is empty (falsy). -/
def savedTheme (storage : Option String) : String :=
  match storage with
  | none => "light"
  | some s => if s = "" then "light" else s

/-! ## Theme toggle — emoji variant (`books_app/static/js/main.js`) -/

/-- Page state touched by the emoji-variant theme controller.
`toggleText` is the toggle button's `textContent` (`none` while untouched
or when the button is absent); `writes` is the trace of values written to
`localStorage` under the `theme` key. -/
structure EmojiPage where
  dataTheme : String
  storage : Option String
  toggleText : Option String
  clickWired : Bool
  writes : List String
  deriving DecidableEq, Repr

/-- `updateEmoji`: `if (themeToggle) themeToggle.textContent = theme ===
'dark' ? '☀️' : '🌙'`. -/
def updateEmoji (togglePresent : Bool) (cur : Option String) (theme : String) :
    Option String :=
  if togglePresent then some (if theme = "dark" then "☀️" else "🌙") else cur

/-- The emoji variant's `DOMContentLoaded` theme section: read the saved
theme, set `data-theme` on the body, initialize the indicator, and wire the
click handler exactly when the toggle control exists. -/
def emojiLoad (togglePresent : Bool) (storage : Option String) : EmojiPage :=
  let saved := savedTheme storage
  { dataTheme := saved
    storage := storage
    toggleText := updateEmoji togglePresent none saved
    clickWired := togglePresent
    writes := [] }

/-- The emoji variant's theme-toggle click handler: read `data-theme`,
flip `'dark'` ↔ anything-else-to-`'dark'`, set the attribute, persist the
new value, update the indicator. -/
def emojiClick (p : EmojiPage) : EmojiPage :=
  let currentTheme := p.dataTheme
  let newTheme := if currentTheme = "dark" then "light" else "dark"
  { dataTheme := newTheme
    storage := some newTheme
    toggleText := updateEmoji true p.toggleText newTheme
    clickWired := p.clickWired
    writes := p.writes ++ [newTheme] }

/-- `n` theme-toggle clicks after a load, emoji variant (control present). -/
def emojiRun (storage : Option String) : Nat → EmojiPage
  | 0 => emojiLoad true storage
  | n + 1 => emojiClick (emojiRun storage n)

/-! ## Theme toggle — icon variant (`src/unnamed/part_000`) -/

/-- Page state touched by the icon-variant theme controller: the two
icons' CSS `display` values replace the emoji text. -/
structure IconPage where
  dataTheme : String
  storage : Option String
  sunDisplay : String
  moonDisplay : String
  clickWired : Bool
  writes : List String
  deriving DecidableEq, Repr

/-- `updateIcons` when both icon elements exist: dark shows the moon icon
and hides the sun icon, anything else the reverse. Returns
`(sunDisplay, moonDisplay)`. -/
def updateIcons (theme : String) : String × String :=
  if theme = "dark" then ("none", "inline") else ("inline", "none")

/-- The icon variant's load result when both icon elements are present. -/
def iconPageInit (togglePresent : Bool) (storage : Option String) : IconPage :=
  let saved := savedTheme storage
  { dataTheme := saved
    storage := storage
    sunDisplay := (updateIcons saved).1
    moonDisplay := (updateIcons saved).2
    clickWired := togglePresent
    writes := [] }

/-- The icon variant's `DOMContentLoaded` theme section.  `updateIcons`
dereferences `sunIcon.style` and `moonIcon.style` without a guard, so the
load-time call throws a `TypeError` when either icon element is absent;
only the toggle control itself is guarded (`if (themeToggle)`). -/
def iconLoad (togglePresent sunPresent moonPresent : Bool)
    (storage : Option String) : Except String IconPage :=
  if sunPresent && moonPresent then
    Except.ok (iconPageInit togglePresent storage)
  else
    Except.error "TypeError"

/-- The icon variant's theme-toggle click handler. -/
def iconClick (p : IconPage) : IconPage :=
  let currentTheme := p.dataTheme
  let newTheme := if currentTheme = "dark" then "light" else "dark"
  { dataTheme := newTheme
    storage := some newTheme
    sunDisplay := (updateIcons newTheme).1
    moonDisplay := (updateIcons newTheme).2
    clickWired := p.clickWired
    writes := p.writes ++ [newTheme] }

/-- `n` theme-toggle clicks after a load, icon variant (all elements
present). -/
def iconRun (storage : Option String) : Nat → IconPage
  | 0 => iconPageInit true storage
  | n + 1 => iconClick (iconRun storage n)

/-! ## Whole-script initialization (`main.js`) -/

/-- Observable outcome of running the emoji variant's `DOMContentLoaded`
handler: whether the navigation handlers were attached, and the theme
section's state.  The function is total: no branch of the script can
fault. -/
structure MainPage where
  navWired : Bool
  theme : EmojiPage
  deriving DecidableEq, Repr

/-- The whole `DOMContentLoaded` handler of `main.js`: the navigation
handlers are attached exactly when `toggleButton && mainNav`, and the theme
section runs unconditionally afterwards. -/
def scriptInit (tbPresent mnPresent themeTogglePresent : Bool)
    (storage : Option String) : MainPage :=
  { navWired := tbPresent && mnPresent
    theme := emojiLoad themeTogglePresent storage }

/-! ## Service worker (`static/sw.js`) -/

/-- Requests and responses are opaque to the worker; strings suffice. -/
abbrev SwRequest := String

/-- A network response body. -/
abbrev SwResponse := String

/-- Observable state of the service worker context: a cache (never
touched by this worker) and the console log. -/
structure SWState where
  cache : List (SwRequest × SwResponse)
  log : List String
  deriving DecidableEq, Repr

/-- The `install` listener: `console.log('Service Worker: Installed')`
and nothing else. -/
def installHandler (s : SWState) : SWState :=
  { s with log := s.log ++ ["Service Worker: Installed"] }

/-- What the fetch handler hands to `event.respondWith`. -/
inductive FetchSrc where
  | network (req : SwRequest)
  deriving DecidableEq, Repr

/-- The `fetch` listener: `event.respondWith(fetch(event.request))` —
respond with a network fetch of the unmodified request. -/
def fetchHandler (req : SwRequest) : FetchSrc :=
  FetchSrc.network req

/-- Evaluate the handler's choice against a network, which either
returns a response or fails. -/
def runFetchSrc (network : SwRequest → Except String SwResponse) :
    FetchSrc → Except String SwResponse
  | FetchSrc.network req => network req

/-- Modelled from the spec: the pass-through contract — the page receives
exactly what the network returns for the same request, failures included. -/
def passThroughSpec (network : SwRequest → Except String SwResponse)
    (req : SwRequest) : Except String SwResponse :=
  network req

/-! ## Theorems -/

/-- C1: For every sequence of clicks on the navigation toggle control (and
on navigation links), starting from the page's initial state, the
container's `is-open` state and the toggle's `aria-expanded` attribute stay
in lockstep: open implies `"true"`, closed implies `"false"`. -/
theorem nav_lockstep_invariant (evs : List NavEvent) : lockstep (navRun evs) := by
  have step : ∀ (s : NavState) (e : NavEvent), lockstep s → lockstep (navStep s e) := by
    intro s e h
    cases e with
    | toggleClick =>
      cases hs : s.isOpen with
      | true =>
        have ha := h.1 hs
        constructor
        · intro hopen
          simp [navStep, navToggleClick, hs] at hopen
        · intro _
          simp [navStep, navToggleClick, ha]
      | false =>
        have ha := h.2 hs
        constructor
        · intro _
          simp [navStep, navToggleClick, ha]
        · intro hclosed
          simp [navStep, navToggleClick, hs] at hclosed
    | linkClick =>
      cases hs : s.isOpen with
      | true =>
        constructor
        · intro hopen
          simp [navStep, navLinkClick, hs] at hopen
        · intro _
          simp [navStep, navLinkClick, hs]
      | false =>
        have : navStep s NavEvent.linkClick = s := by
          simp [navStep, navLinkClick, hs]
        rw [this]
        exact h
  have init : lockstep initNavState := by
    constructor <;> intro h <;> simp [initNavState] at h ⊢
  have fold : ∀ (l : List NavEvent) (s : NavState),
      lockstep s → lockstep (l.foldl navStep s) := by
    intro l
    induction l with
    | nil => intro s h; exact h
    | cons e t ih =>
      intro s h
      exact ih (navStep s e) (step s e h)
  exact fold evs initNavState init

/-- C2: The theme preference round-trips through storage: a stored
`"dark"` loads as `"dark"`, an absent value loads as the default
`"light"`, every click persists the applied theme, and a reload after a
click reads back exactly the theme that click applied. -/
theorem theme_roundtrip :
    (emojiLoad true (some "dark")).dataTheme = "dark" ∧
    (emojiLoad true none).dataTheme = "light" ∧
    (∀ p : EmojiPage, (emojiClick p).storage = some (emojiClick p).dataTheme) ∧
    (∀ p : EmojiPage,
      (emojiLoad true (emojiClick p).storage).dataTheme = (emojiClick p).dataTheme) := by
  refine ⟨rfl, rfl, fun p => rfl, ?_⟩
  intro p
  by_cases h : p.dataTheme = "dark" <;> simp [emojiClick, emojiLoad, savedTheme, h]

/-- C3 counterexample: from the state after a fresh load with no stored
preference, two clicks leave the persisted preference at `some "light"`
though it was absent before; and from a load of a stored `"purple"`, two
clicks leave the attribute at `"light"`, not `"purple"`. -/
theorem theme_double_click_counterexample :
    (emojiClick (emojiClick (emojiLoad true none))).storage ≠
      (emojiLoad true none).storage ∧
    (emojiClick (emojiClick (emojiLoad true (some "purple")))).dataTheme ≠
      (emojiLoad true (some "purple")).dataTheme := by
  constructor <;> decide

/-- C3 amended: when the document theme attribute is `"light"` or
`"dark"`, two clicks return the attribute to its prior value, and also
return the persisted preference to its prior value whenever that
preference already equalled the attribute (as it does after any click). -/
theorem theme_double_click_involution (p : EmojiPage)
    (h : p.dataTheme = "light" ∨ p.dataTheme = "dark") :
    (emojiClick (emojiClick p)).dataTheme = p.dataTheme ∧
    (p.storage = some p.dataTheme →
      (emojiClick (emojiClick p)).storage = p.storage) := by
  rcases h with h | h <;> exact ⟨by simp [emojiClick, h], fun hs => by simp [emojiClick, h, hs]⟩

/-- C3 witness: the state after one click from a fresh load has theme
`"dark"` and matching stored preference; two more clicks restore both. -/
theorem theme_double_click_involution_witness :
    (emojiClick (emojiClick (emojiClick (emojiLoad true none)))).dataTheme =
      (emojiClick (emojiLoad true none)).dataTheme ∧
    (emojiClick (emojiClick (emojiClick (emojiLoad true none)))).storage =
      (emojiClick (emojiLoad true none)).storage :=
  ⟨(theme_double_click_involution (emojiClick (emojiLoad true none))
      (Or.inr (by decide))).1,
   (theme_double_click_involution (emojiClick (emojiLoad true none))
      (Or.inr (by decide))).2 (by decide)⟩

/-- C4: A click on a navigation link closes an open menu and sets the
attribute to `"false"`; on a closed menu it changes nothing. -/
theorem nav_link_click_closes (s : NavState) :
    (s.isOpen = true → navLinkClick s = { isOpen := false, ariaExpanded := "false" }) ∧
    (s.isOpen = false → navLinkClick s = s) := by
  constructor <;> intro h <;> simp [navLinkClick, h]

/-- C4 witness: the link handler at a concrete open state and a concrete
closed state. -/
theorem nav_link_click_closes_witness :
    navLinkClick { isOpen := true, ariaExpanded := "true" } =
      { isOpen := false, ariaExpanded := "false" } ∧
    navLinkClick { isOpen := false, ariaExpanded := "false" } =
      { isOpen := false, ariaExpanded := "false" } :=
  ⟨(nav_link_click_closes { isOpen := true, ariaExpanded := "true" }).1 rfl,
   (nav_link_click_closes { isOpen := false, ariaExpanded := "false" }).2 rfl⟩

/-- C5: The fetch handler's response equals what the network returns for
the same unmodified request, and a network failure propagates unchanged
with no substituted response. -/
theorem sw_fetch_pass_through (network : SwRequest → Except String SwResponse)
    (req : SwRequest) :
    runFetchSrc network (fetchHandler req) = passThroughSpec network req ∧
    (∀ e, network req = Except.error e →
      runFetchSrc network (fetchHandler req) = Except.error e) := by
  exact ⟨rfl, fun e he => by simpa [runFetchSrc, fetchHandler] using he⟩

/-- C5 witness: against a network that always fails, the handler yields
exactly that failure for a concrete request. -/
theorem sw_fetch_pass_through_witness :
    runFetchSrc (fun _ => Except.error "offline") (fetchHandler "/index.html") =
      passThroughSpec (fun _ => Except.error "offline") "/index.html" ∧
    runFetchSrc (fun _ => Except.error "offline") (fetchHandler "/index.html") =
      Except.error "offline" :=
  ⟨(sw_fetch_pass_through (fun _ => Except.error "offline") "/index.html").1,
   (sw_fetch_pass_through (fun _ => Except.error "offline") "/index.html").2
      "offline" rfl⟩

/-- C6 counterexample: in the icon variant, with the toggle control absent
and the icon elements absent, load faults with a `TypeError` — absence of
the toggle control is not the only error condition, and load does not
complete without fault. -/
theorem theme_absent_icons_fault :
    iconLoad false false false none = Except.error "TypeError" := rfl

/-- C6 amended: the emoji variant has no error condition — with the
control absent, the click transition is unwired and load still applies the
stored-or-default theme, leaving the indicator untouched; the icon variant
behaves likewise when both icons are present, but faults at load whenever
either icon element is absent. -/
theorem theme_absent_toggle_amended (storage : Option String) :
    ((emojiLoad false storage).clickWired = false ∧
     (emojiLoad false storage).dataTheme = savedTheme storage ∧
     (emojiLoad false storage).toggleText = none) ∧
    (iconLoad false true true storage = Except.ok (iconPageInit false storage) ∧
     (iconPageInit false storage).clickWired = false ∧
     (iconPageInit false storage).dataTheme = savedTheme storage) ∧
    (∀ t m : Bool, iconLoad t false m storage = Except.error "TypeError") ∧
    (∀ t s : Bool, iconLoad t s false storage = Except.error "TypeError") := by
  refine ⟨⟨rfl, rfl, rfl⟩, ⟨rfl, rfl, rfl⟩, fun t m => rfl, fun t s => ?_⟩
  cases s <;> rfl

/-- C7: If the navigation toggle button or the navigation container is
absent, no navigation handlers are attached and the theme section still
runs exactly as it would alone; `scriptInit` is total, so no failure is
raised. -/
theorem script_nav_absent_noop (tb mn tp : Bool) (storage : Option String)
    (h : tb = false ∨ mn = false) :
    (scriptInit tb mn tp storage).navWired = false ∧
    (scriptInit tb mn tp storage).theme = emojiLoad tp storage := by
  refine ⟨?_, rfl⟩
  rcases h with h | h <;> simp [scriptInit, h]

/-- C7 witness: toggle button absent, container present, stored theme
`"dark"`. -/
theorem script_nav_absent_noop_witness :
    (scriptInit false true true (some "dark")).navWired = false ∧
    (scriptInit false true true (some "dark")).theme = emojiLoad true (some "dark") :=
  script_nav_absent_noop false true true (some "dark") (Or.inl rfl)

/-- C8: The install handler appends exactly one diagnostic log line and
leaves the cache (and everything else in the worker state) unchanged. -/
theorem sw_install_frame (s : SWState) :
    (installHandler s).cache = s.cache ∧
    (installHandler s).log = s.log ++ ["Service Worker: Installed"] :=
  ⟨rfl, rfl⟩

/-- C9: For every initial stored value and every number of toggle clicks,
the emoji variant and the icon variant agree on the document theme
attribute, the stored preference, and the full trace of storage writes. -/
theorem theme_variants_equivalent (storage : Option String) (n : Nat) :
    (emojiRun storage n).dataTheme = (iconRun storage n).dataTheme ∧
    (emojiRun storage n).storage = (iconRun storage n).storage ∧
    (emojiRun storage n).writes = (iconRun storage n).writes := by
  induction n with
  | zero => exact ⟨rfl, rfl, rfl⟩
  | succ n ih =>
    obtain ⟨h1, h2, h3⟩ := ih
    refine ⟨?_, ?_, ?_⟩ <;>
      simp [emojiRun, iconRun, emojiClick, iconClick, h1, h3]

/-- C10: Load applies any non-empty stored string verbatim; the default
`"light"` is applied exactly when the value is absent or empty; a click
from any non-`"dark"` theme goes to `"dark"`, and after any click the
theme is `"light"` or `"dark"`. -/
theorem theme_verbatim_load_and_click :
    (∀ s : String, s ≠ "" → savedTheme (some s) = s) ∧
    savedTheme none = "light" ∧
    savedTheme (some "") = "light" ∧
    (∀ p : EmojiPage, p.dataTheme ≠ "dark" → (emojiClick p).dataTheme = "dark") ∧
    (∀ p : EmojiPage,
      (emojiClick p).dataTheme = "light" ∨ (emojiClick p).dataTheme = "dark") := by
  refine ⟨?_, rfl, rfl, ?_, ?_⟩
  · intro s hs; simp [savedTheme, hs]
  · intro p hp; simp [emojiClick, hp]
  · intro p
    by_cases h : p.dataTheme = "dark" <;> simp [emojiClick, h]

/-- C10 witness: a stored `"solarized"` loads verbatim and one click from
it lands on `"dark"`. -/
theorem theme_verbatim_load_and_click_witness :
    savedTheme (some "solarized") = "solarized" ∧
    (emojiClick (emojiLoad true (some "solarized"))).dataTheme = "dark" :=
  ⟨theme_verbatim_load_and_click.1 "solarized" (by decide),
   theme_verbatim_load_and_click.2.2.2.1 (emojiLoad true (some "solarized"))
      (by decide)⟩
